/-
Verification of the EduBot school-recommendation scoring core
(`calculateScore` and the `/api/recommend` pipeline in backend/server.js)
against its specification.

School records and user profiles arrive as raw JSON request bodies, so every
field is modelled as a dynamically-typed value (`JSVal`), with
`JSVal.undefined` standing for an absent field.  JavaScript coercions used by
the source (`String(v)`, truthiness, `toLowerCase`, `<=` numeric coercion,
strict equality) are modelled explicitly.  Operations that can throw a
`TypeError` (calling `.toLowerCase()` on a non-string) are modelled in
`Except String`.
-/
import Mathlib

deriving instance DecidableEq for Except

namespace EduBot

/-- A JavaScript/JSON value as it appears in a request body or a database
record.  Numbers are modelled as integers: every numeric field in the data
model (fee, distance, class, maxDistance) is integral. -/
inductive JSVal where
  | undefined
  | null
  | bool (b : Bool)
  | num (n : Int)
  | str (s : String)
  | arr (elems : List JSVal)
  deriving Repr

/-- Equality test on `JSVal` (JavaScript `===` between same-typed values;
array identity is modelled structurally, which the scoring code never
relies on). -/
def JSVal.beq : JSVal → JSVal → Bool
  | .undefined, .undefined => true
  | .null, .null => true
  | .bool a, .bool b => a == b
  | .num a, .num b => a == b
  | .str a, .str b => a == b
  | .arr a, .arr b => beqList a b
  | _, _ => false
where
  beqList : List JSVal → List JSVal → Bool
  | [], [] => true
  | x :: xs, y :: ys => JSVal.beq x y && beqList xs ys
  | _, _ => false

mutual

theorem JSVal.beq_refl : ∀ v : JSVal, JSVal.beq v v = true
  | .undefined => rfl
  | .null => rfl
  | .bool b => by simp [JSVal.beq]
  | .num n => by simp [JSVal.beq]
  | .str s => by simp [JSVal.beq]
  | .arr xs => by simpa [JSVal.beq] using JSVal.beqList_refl xs

theorem JSVal.beqList_refl : ∀ xs : List JSVal, JSVal.beq.beqList xs xs = true
  | [] => rfl
  | x :: xs => by
      simp only [JSVal.beq.beqList, Bool.and_eq_true]
      exact ⟨JSVal.beq_refl x, JSVal.beqList_refl xs⟩

end

mutual

theorem JSVal.eq_of_beq : ∀ {v w : JSVal}, JSVal.beq v w = true → v = w
  | .undefined, .undefined, _ => rfl
  | .null, .null, _ => rfl
  | .bool a, .bool b, h => by simpa [JSVal.beq] using h
  | .num a, .num b, h => by simpa [JSVal.beq] using h
  | .str a, .str b, h => by simpa [JSVal.beq] using h
  | .arr a, .arr b, h => by
      simp only [JSVal.beq] at h
      exact congrArg JSVal.arr (JSVal.eqList_of_beqList h)
  | .undefined, .null, h => by simp [JSVal.beq] at h
  | .undefined, .bool _, h => by simp [JSVal.beq] at h
  | .undefined, .num _, h => by simp [JSVal.beq] at h
  | .undefined, .str _, h => by simp [JSVal.beq] at h
  | .undefined, .arr _, h => by simp [JSVal.beq] at h
  | .null, .undefined, h => by simp [JSVal.beq] at h
  | .null, .bool _, h => by simp [JSVal.beq] at h
  | .null, .num _, h => by simp [JSVal.beq] at h
  | .null, .str _, h => by simp [JSVal.beq] at h
  | .null, .arr _, h => by simp [JSVal.beq] at h
  | .bool _, .undefined, h => by simp [JSVal.beq] at h
  | .bool _, .null, h => by simp [JSVal.beq] at h
  | .bool _, .num _, h => by simp [JSVal.beq] at h
  | .bool _, .str _, h => by simp [JSVal.beq] at h
  | .bool _, .arr _, h => by simp [JSVal.beq] at h
  | .num _, .undefined, h => by simp [JSVal.beq] at h
  | .num _, .null, h => by simp [JSVal.beq] at h
  | .num _, .bool _, h => by simp [JSVal.beq] at h
  | .num _, .str _, h => by simp [JSVal.beq] at h
  | .num _, .arr _, h => by simp [JSVal.beq] at h
  | .str _, .undefined, h => by simp [JSVal.beq] at h
  | .str _, .null, h => by simp [JSVal.beq] at h
  | .str _, .bool _, h => by simp [JSVal.beq] at h
  | .str _, .num _, h => by simp [JSVal.beq] at h
  | .str _, .arr _, h => by simp [JSVal.beq] at h
  | .arr _, .undefined, h => by simp [JSVal.beq] at h
  | .arr _, .null, h => by simp [JSVal.beq] at h
  | .arr _, .bool _, h => by simp [JSVal.beq] at h
  | .arr _, .num _, h => by simp [JSVal.beq] at h
  | .arr _, .str _, h => by simp [JSVal.beq] at h

theorem JSVal.eqList_of_beqList : ∀ {xs ys : List JSVal},
    JSVal.beq.beqList xs ys = true → xs = ys
  | [], [], _ => rfl
  | [], _ :: _, h => by simp [JSVal.beq.beqList] at h
  | _ :: _, [], h => by simp [JSVal.beq.beqList] at h
  | x :: xs, y :: ys, h => by
      simp only [JSVal.beq.beqList, Bool.and_eq_true] at h
      rw [JSVal.eq_of_beq h.1, JSVal.eqList_of_beqList h.2]

end

instance : DecidableEq JSVal := fun v w =>
  if h : JSVal.beq v w = true then
    .isTrue (JSVal.eq_of_beq h)
  else
    .isFalse (fun he => h (he ▸ JSVal.beq_refl v))

mutual

/-- JavaScript `String(v)` coercion for the values of this data model. -/
def jsToString : JSVal → String
  | .undefined => "undefined"
  | .null => "null"
  | .bool true => "true"
  | .bool false => "false"
  | .num n => toString n
  | .str s => s
  | .arr xs => String.intercalate "," (jsElemStrings xs)

/-- Element coercion of `Array.prototype.join`: `null` and `undefined`
elements become the empty string, everything else is `String`-coerced. -/
def jsElemStrings : List JSVal → List String
  | [] => []
  | .undefined :: xs => "" :: jsElemStrings xs
  | .null :: xs => "" :: jsElemStrings xs
  | x :: xs => jsToString x :: jsElemStrings xs

end

/-- JavaScript truthiness of a value of this data model (no NaN arises:
numbers are integral). -/
def truthy : JSVal → Bool
  | .undefined => false
  | .null => false
  | .bool b => b
  | .num n => n != 0
  | .str s => s != ""
  | .arr _ => true

/-- Lower-casing of a string, character by character (`Char.toLower`), which
is the behaviour of JavaScript `toLowerCase` on the basic-latin strings of
this data model. -/
def lowerStr (s : String) : String :=
  ⟨s.data.map Char.toLower⟩

/-- JavaScript `v.toLowerCase()`: defined only on strings; on any other value
the method lookup yields `undefined` and the call throws a `TypeError`. -/
def jsToLower : JSVal → Except String String
  | .str s => .ok (lowerStr s)
  | _ => .error "TypeError"

/-- Containment of `needle` as a contiguous run in a character list. -/
def charsInclude (needle : List Char) : List Char → Bool
  | [] => needle.isEmpty
  | c :: rest => needle.isPrefixOf (c :: rest) || charsInclude needle rest

/-- JavaScript `hay.includes(needle)` for strings: substring containment. -/
def strIncludes (hay needle : String) : Bool :=
  charsInclude needle.toList hay.toList

/-- A nonempty all-digit character run read as a natural number. -/
def digitsToNat (cs : List Char) : Option Nat :=
  if cs.isEmpty then none
  else if cs.all Char.isDigit then
    some (cs.foldl (fun a c => a * 10 + (c.toNat - 48)) 0)
  else none

/-- JavaScript `ToNumber` on a string, for the string shapes this data model
produces: surrounding whitespace is trimmed, the empty string is `0`, and an
optionally signed run of digits is read as an integer; any other string is
`NaN` (`none`).  (Fractional/exponent/hex literals do not occur in this data
model, whose numbers are integral.) -/
def strToNum (s : String) : Option Int :=
  match (s.data.dropWhile Char.isWhitespace).reverse.dropWhile Char.isWhitespace |>.reverse with
  | [] => some 0
  | '-' :: rest => (digitsToNat rest).map (fun n => -(n : Int))
  | '+' :: rest => (digitsToNat rest).map (fun n => (n : Int))
  | cs => (digitsToNat cs).map (fun n => (n : Int))

/-- JavaScript `ToNumber` coercion: `undefined ↦ NaN` (`none`), `null ↦ 0`,
booleans to `0`/`1`, strings via `strToNum`, arrays via their joined string. -/
def toNumber : JSVal → Option Int
  | .undefined => none
  | .null => some 0
  | .bool b => some (if b then 1 else 0)
  | .num n => some n
  | .str s => strToNum s
  | .arr xs => strToNum (jsToString (.arr xs))

/-- JavaScript `n <= v` where the left operand is already a number: the right
operand is coerced with `ToNumber`; a `NaN` comparison is `false`. -/
def jsLeNum (n : Int) (v : JSVal) : Bool :=
  match toNumber v with
  | some m => decide (n ≤ m)
  | none => false

/-- A school record as fetched from the database: every field is a raw JSON
value, `JSVal.undefined` when absent.  Field names as in the source
(including the `distence` misspelling). -/
structure School where
  classes : JSVal := .undefined
  location : JSVal := .undefined
  type : JSVal := .undefined
  distence : JSVal := .undefined
  fee : JSVal := .undefined
  midday : JSVal := .undefined
  girlSupport : JSVal := .undefined
  deriving DecidableEq, Repr

/-- A user profile as posted to `/api/recommend`: every field is a raw JSON
value, `JSVal.undefined` when absent.  `class_` models the `class` field. -/
structure User where
  class_ : JSVal := .undefined
  location : JSVal := .undefined
  type : JSVal := .undefined
  maxDistance : JSVal := .undefined
  fee : JSVal := .undefined
  middayMeal : JSVal := .undefined
  girlChild : JSVal := .undefined
  deriving DecidableEq, Repr

/-- CLASS criterion (server.js lines 65–72): guarded by
`classes !== undefined && classes !== null`; an array is searched after
`map(String)`, a scalar is `String`-compared; 30 points. -/
def classScore (school : School) (user : User) : Int :=
  if school.classes ≠ JSVal.undefined ∧ school.classes ≠ JSVal.null then
    match school.classes with
    | .arr xs =>
        if (xs.map jsToString).contains (jsToString user.class_) then 30 else 0
    | c => if jsToString c = jsToString user.class_ then 30 else 0
  else 0

/-- LOCATION criterion (server.js lines 74–81): both sides truthy, then
`school.location.toLowerCase().includes(user.location.toLowerCase())`;
`toLowerCase` on a truthy non-string throws (school side first); 20 points. -/
def locationScore (school : School) (user : User) : Except String Int :=
  if truthy school.location && truthy user.location then
    match jsToLower school.location, jsToLower user.location with
    | .ok sl, .ok ul => .ok (if strIncludes sl ul then 20 else 0)
    | .error e, _ => .error e
    | .ok _, .error e => .error e
  else .ok 0

/-- TYPE criterion (server.js lines 83–90): both sides truthy, then
case-insensitive strict equality; `toLowerCase` on a truthy non-string
throws (school side first); 20 points. -/
def typeScore (school : School) (user : User) : Except String Int :=
  if truthy school.type && truthy user.type then
    match jsToLower school.type, jsToLower user.type with
    | .ok st, .ok ut => .ok (if st = ut then 20 else 0)
    | .error e, _ => .error e
    | .ok _, .error e => .error e
  else .ok 0

/-- DISTANCE criterion (server.js lines 92–98): requires
`typeof school.distence === "number"`, then JavaScript
`school.distence <= user.maxDistance` (right side `ToNumber`-coerced);
20 points. -/
def distanceScore (school : School) (user : User) : Int :=
  match school.distence with
  | .num d => if jsLeNum d user.maxDistance then 20 else 0
  | _ => 0

/-- FEE criterion (server.js lines 100–108): requires
`typeof school.fee === "number"`, then one of the three category bounds;
20 points. -/
def feeScore (school : School) (user : User) : Int :=
  match school.fee with
  | .num f =>
      if (user.fee = JSVal.str "free" ∧ f = 0) ∨
         (user.fee = JSVal.str "low" ∧ f ≤ 500) ∨
         (user.fee = JSVal.str "medium" ∧ f ≤ 1500) then 20 else 0
  | _ => 0

/-- MIDDAY-MEAL scheme (server.js line 111): user flag truthy and
`school.midday === true`; 5 points. -/
def middayScore (school : School) (user : User) : Int :=
  if truthy user.middayMeal ∧ school.midday = JSVal.bool true then 5 else 0

/-- GIRL-CHILD scheme (server.js line 112): user flag truthy and
`school.girlSupport === true`; 5 points. -/
def girlScore (school : School) (user : User) : Int :=
  if truthy user.girlChild ∧ school.girlSupport = JSVal.bool true then 5 else 0

/-- The function `calculateScore` (server.js lines 62–115): the criteria accumulate in
source order; the LOCATION check runs (and can throw) before the TYPE check,
and no other criterion can throw, so the whole function is the sum of the
seven contributions with location's error propagating first. -/
def calculateScore (school : School) (user : User) : Except String Int :=
  match locationScore school user, typeScore school user with
  | .ok l, .ok t =>
      .ok (classScore school user + l + t + distanceScore school user +
           feeScore school user + middayScore school user +
           girlScore school user)
  | .error e, _ => .error e
  | .ok _, .error e => .error e

/-- Score every school: `schools.map(s => ({...s, score: calculateScore(s,
user)}))`, evaluated left to right, with a thrown `TypeError` propagating out
of the handler. -/
def scoreAll (ss : List School) (user : User) : Except String (List (School × Int)) :=
  match ss with
  | [] => .ok []
  | s :: rest =>
      match calculateScore s user, scoreAll rest user with
      | .ok v, .ok tail => .ok ((s, v) :: tail)
      | .error e, _ => .error e
      | .ok _, .error e => .error e

/-- Insert a scored school into a list kept in descending score order. -/
def insertDesc (p : School × Int) : List (School × Int) → List (School × Int)
  | [] => [p]
  | q :: rest => if q.2 ≤ p.2 then p :: q :: rest else q :: insertDesc p rest

/-- Sort scored schools in descending score order (the effect of
`sort((a, b) => b.score - a.score)`; the order of equal scores is left
unspecified by the source, and this model makes no claim about it). -/
def sortDesc : List (School × Int) → List (School × Int)
  | [] => []
  | p :: rest => insertDesc p (sortDesc rest)

/-- The `/api/recommend` pipeline (server.js lines 182–185): score every
school, keep `score >= 30`, sort descending by score. -/
def recommend (ss : List School) (user : User) : Except String (List (School × Int)) :=
  match scoreAll ss user with
  | .ok scored => .ok (sortDesc (scored.filter (fun p => decide (30 ≤ p.2))))
  | .error e => .error e

/-! ### Per-criterion case analysis -/

theorem classScore_cases (s : School) (u : User) :
    classScore s u = 0 ∨ classScore s u = 30 := by
  unfold classScore
  split
  · split
    · split <;> simp
    · split <;> simp
  · left; rfl

theorem locationScore_ok_cases (s : School) (u : User) (l : Int)
    (h : locationScore s u = .ok l) : l = 0 ∨ l = 20 := by
  unfold locationScore at h
  split at h
  · split at h
    · split at h <;> simp_all
    · simp_all
    · simp_all
  · simp_all

theorem typeScore_ok_cases (s : School) (u : User) (t : Int)
    (h : typeScore s u = .ok t) : t = 0 ∨ t = 20 := by
  unfold typeScore at h
  split at h
  · split at h
    · split at h <;> simp_all
    · simp_all
    · simp_all
  · simp_all

theorem distanceScore_cases (s : School) (u : User) :
    distanceScore s u = 0 ∨ distanceScore s u = 20 := by
  unfold distanceScore
  split
  · split <;> simp
  · left; rfl

theorem feeScore_cases (s : School) (u : User) :
    feeScore s u = 0 ∨ feeScore s u = 20 := by
  unfold feeScore
  split
  · split <;> simp
  · left; rfl

theorem middayScore_cases (s : School) (u : User) :
    middayScore s u = 0 ∨ middayScore s u = 5 := by
  unfold middayScore
  split <;> simp

theorem girlScore_cases (s : School) (u : User) :
    girlScore s u = 0 ∨ girlScore s u = 5 := by
  unfold girlScore
  split <;> simp

/-- Decomposition of `calculateScore`: a normal return is exactly the sum of
the seven criterion contributions, with location and type returning
normally. -/
theorem calculateScore_ok_iff (s : School) (u : User) (v : Int) :
    calculateScore s u = .ok v ↔
      ∃ l t, locationScore s u = .ok l ∧ typeScore s u = .ok t ∧
        v = classScore s u + l + t + distanceScore s u + feeScore s u +
            middayScore s u + girlScore s u := by
  constructor
  · intro h
    unfold calculateScore at h
    split at h
    · rename_i l t hl ht
      exact ⟨l, t, hl, ht, by cases h; rfl⟩
    · simp_all
    · simp_all
  · rintro ⟨l, t, hl, ht, rfl⟩
    unfold calculateScore
    rw [hl, ht]

/-! ### Pipeline lemmas -/

theorem insertDesc_perm (p : School × Int) (l : List (School × Int)) :
    List.Perm (insertDesc p l) (p :: l) := by
  induction l with
  | nil => rfl
  | cons q rest ih =>
      unfold insertDesc
      split
      · rfl
      · exact (List.Perm.cons q ih).trans (List.Perm.swap p q rest)

theorem sortDesc_perm (l : List (School × Int)) : List.Perm (sortDesc l) l := by
  induction l with
  | nil => rfl
  | cons p rest ih =>
      exact (insertDesc_perm p (sortDesc rest)).trans (List.Perm.cons p ih)

theorem insertDesc_pairwise (p : School × Int) (l : List (School × Int))
    (h : l.Pairwise (fun a b => b.2 ≤ a.2)) :
    (insertDesc p l).Pairwise (fun a b => b.2 ≤ a.2) := by
  induction l with
  | nil => simp [insertDesc]
  | cons q rest ih =>
      rw [List.pairwise_cons] at h
      unfold insertDesc
      split
      · rename_i hle
        refine List.Pairwise.cons ?_ (List.Pairwise.cons h.1 h.2)
        intro x hx
        rcases List.mem_cons.mp hx with rfl | hx
        · exact hle
        · exact le_trans (h.1 x hx) hle
      · rename_i hgt
        refine List.Pairwise.cons ?_ (ih h.2)
        intro x hx
        rcases List.mem_cons.mp ((insertDesc_perm p rest).mem_iff.mp hx) with rfl | hx
        · omega
        · exact h.1 x hx

theorem sortDesc_pairwise (l : List (School × Int)) :
    (sortDesc l).Pairwise (fun a b => b.2 ≤ a.2) := by
  induction l with
  | nil => exact List.Pairwise.nil
  | cons p rest ih => exact insertDesc_pairwise p (sortDesc rest) ih

theorem scoreAll_map_fst (u : User) :
    ∀ (ss : List School) (scored : List (School × Int)),
      scoreAll ss u = .ok scored → scored.map Prod.fst = ss := by
  intro ss
  induction ss with
  | nil => intro scored h; cases h; rfl
  | cons s rest ih =>
      intro scored h
      unfold scoreAll at h
      split at h
      · rename_i v tail _ htail
        cases h
        simpa using ih tail htail
      · simp_all
      · simp_all

theorem scoreAll_scores (u : User) :
    ∀ (ss : List School) (scored : List (School × Int)),
      scoreAll ss u = .ok scored →
        ∀ p ∈ scored, calculateScore p.1 u = .ok p.2 := by
  intro ss
  induction ss with
  | nil => intro scored h; cases h; intro p hp; cases hp
  | cons s rest ih =>
      intro scored h
      unfold scoreAll at h
      split at h
      · rename_i v tail hv htail
        cases h
        intro p hp
        rcases List.mem_cons.mp hp with rfl | hp
        · exact hv
        · exact ih tail htail p hp
      · simp_all
      · simp_all

/-! ### Totality and skipping lemmas -/

/-- A value that is either a string or falsy: on such values the location and
type criteria cannot reach a throwing `toLowerCase` call. -/
def strOrFalsy : JSVal → Bool
  | .str _ => true
  | v => !truthy v

theorem exists_str_of_strOrFalsy {v : JSVal} (h : strOrFalsy v = true)
    (ht : truthy v = true) : ∃ w, v = JSVal.str w := by
  cases v <;> simp_all [strOrFalsy, truthy]

theorem locationScore_isOk (s : School) (u : User)
    (h1 : strOrFalsy s.location = true) (h2 : strOrFalsy u.location = true) :
    ∃ l, locationScore s u = .ok l := by
  unfold locationScore
  split
  · rename_i hb
    rw [Bool.and_eq_true] at hb
    obtain ⟨ws, hws⟩ := exists_str_of_strOrFalsy h1 hb.1
    obtain ⟨wu, hwu⟩ := exists_str_of_strOrFalsy h2 hb.2
    rw [hws, hwu]
    exact ⟨_, rfl⟩
  · exact ⟨0, rfl⟩

theorem typeScore_isOk (s : School) (u : User)
    (h1 : strOrFalsy s.type = true) (h2 : strOrFalsy u.type = true) :
    ∃ t, typeScore s u = .ok t := by
  unfold typeScore
  split
  · rename_i hb
    rw [Bool.and_eq_true] at hb
    obtain ⟨ws, hws⟩ := exists_str_of_strOrFalsy h1 hb.1
    obtain ⟨wu, hwu⟩ := exists_str_of_strOrFalsy h2 hb.2
    rw [hws, hwu]
    exact ⟨_, rfl⟩
  · exact ⟨0, rfl⟩

theorem locationScore_zero_of_falsy (s : School) (u : User)
    (h : truthy s.location = false ∨ truthy u.location = false) :
    locationScore s u = .ok 0 := by
  unfold locationScore
  rcases h with h | h <;> simp [h]

theorem typeScore_zero_of_falsy (s : School) (u : User)
    (h : truthy s.type = false ∨ truthy u.type = false) :
    typeScore s u = .ok 0 := by
  unfold typeScore
  rcases h with h | h <;> simp [h]

theorem classScore_zero_of_absent (s : School) (u : User)
    (h : s.classes = JSVal.undefined) : classScore s u = 0 := by
  unfold classScore
  simp [h]

theorem distanceScore_zero_of_nonnum (s : School) (u : User)
    (h : ∀ d : Int, s.distence ≠ JSVal.num d) : distanceScore s u = 0 := by
  unfold distanceScore
  split
  · rename_i d hd
    exact absurd hd (h d)
  · rfl

theorem feeScore_zero_of_nonnum (s : School) (u : User)
    (h : ∀ f : Int, s.fee ≠ JSVal.num f) : feeScore s u = 0 := by
  unfold feeScore
  split
  · rename_i f hf
    exact absurd hf (h f)
  · rfl

theorem middayScore_zero_of_mismatch (s : School) (u : User)
    (h : s.midday ≠ JSVal.bool true) : middayScore s u = 0 := by
  unfold middayScore
  simp [h]

theorem girlScore_zero_of_mismatch (s : School) (u : User)
    (h : s.girlSupport ≠ JSVal.bool true) : girlScore s u = 0 := by
  unfold girlScore
  simp [h]

/-! ### Fee category characterizations -/

theorem feeScore_of_free (s : School) (u : User) (f : Int)
    (hf : s.fee = JSVal.num f) (hu : u.fee = JSVal.str "free") :
    feeScore s u = if f = 0 then 20 else 0 := by
  unfold feeScore
  rw [hf, hu]
  simp

theorem feeScore_of_low (s : School) (u : User) (f : Int)
    (hf : s.fee = JSVal.num f) (hu : u.fee = JSVal.str "low") :
    feeScore s u = if f ≤ 500 then 20 else 0 := by
  unfold feeScore
  rw [hf, hu]
  simp

theorem feeScore_of_medium (s : School) (u : User) (f : Int)
    (hf : s.fee = JSVal.num f) (hu : u.fee = JSVal.str "medium") :
    feeScore s u = if f ≤ 1500 then 20 else 0 := by
  unfold feeScore
  rw [hf, hu]
  simp

/-! ### Scalar/collection class equivalence -/

theorem classScore_wrap (s : School) (u : User) (c : JSVal)
    (h1 : c ≠ JSVal.undefined) (h2 : c ≠ JSVal.null)
    (h3 : ∀ xs, c ≠ JSVal.arr xs) :
    classScore { s with classes := c } u =
      classScore { s with classes := JSVal.arr [c] } u := by
  cases c with
  | undefined => exact absurd rfl h1
  | null => exact absurd rfl h2
  | arr xs => exact absurd rfl (h3 xs)
  | bool b =>
      by_cases hx : jsToString u.class_ = jsToString (JSVal.bool b)
      · simp [classScore, List.contains, List.elem, hx]
      · have hx' : ¬jsToString (JSVal.bool b) = jsToString u.class_ := fun h => hx h.symm
        have hb : (jsToString u.class_ == jsToString (JSVal.bool b)) = false :=
          beq_eq_false_iff_ne.mpr hx
        simp [classScore, List.contains, List.elem, hx', hb]
  | num n =>
      by_cases hx : jsToString u.class_ = jsToString (JSVal.num n)
      · simp [classScore, List.contains, List.elem, hx]
      · have hx' : ¬jsToString (JSVal.num n) = jsToString u.class_ := fun h => hx h.symm
        have hb : (jsToString u.class_ == jsToString (JSVal.num n)) = false :=
          beq_eq_false_iff_ne.mpr hx
        simp [classScore, List.contains, List.elem, hx', hb]
  | str w =>
      by_cases hx : jsToString u.class_ = jsToString (JSVal.str w)
      · simp [classScore, List.contains, List.elem, hx]
      · have hx' : ¬jsToString (JSVal.str w) = jsToString u.class_ := fun h => hx h.symm
        have hb : (jsToString u.class_ == jsToString (JSVal.str w)) = false :=
          beq_eq_false_iff_ne.mpr hx
        simp [classScore, List.contains, List.elem, hx', hb]

/-! ### Claim theorems -/

/-- C1 (counterexample): `calculateScore` does NOT return normally on every
record: a school whose `location` is the (truthy) number 5 matched against a
user with a string location reaches `school.location.toLowerCase()` and
throws a `TypeError`, contradicting the claim that a type-mismatched field
contributes zero instead of erroring. -/
theorem calculateScore_throws_on_numeric_location :
    calculateScore { location := JSVal.num 5 } { location := JSVal.str "x" } =
      .error "TypeError" := by decide

/-- C1 (amended): `calculateScore` returns normally whenever each of the four
location/type fields is a string or falsy (absent, `null`, `false`, `0`, or
the empty string); under that proviso a criterion whose required field is
absent or type-mismatched contributes zero points: a falsy location or type
side, an absent `classes`, a non-numeric `distence` or `fee`, and a
non-`true` scheme flag each yield a zero contribution.  (A truthy non-string
location or type still throws, as the counterexample shows.) -/
theorem calculateScore_total_on_safe_profiles (s : School) (u : User)
    (h1 : strOrFalsy s.location = true) (h2 : strOrFalsy u.location = true)
    (h3 : strOrFalsy s.type = true) (h4 : strOrFalsy u.type = true) :
    (∃ v, calculateScore s u = .ok v) ∧
    (truthy s.location = false ∨ truthy u.location = false →
      locationScore s u = .ok 0) ∧
    (truthy s.type = false ∨ truthy u.type = false → typeScore s u = .ok 0) ∧
    (s.classes = JSVal.undefined → classScore s u = 0) ∧
    ((∀ d : Int, s.distence ≠ JSVal.num d) → distanceScore s u = 0) ∧
    ((∀ f : Int, s.fee ≠ JSVal.num f) → feeScore s u = 0) ∧
    (s.midday ≠ JSVal.bool true → middayScore s u = 0) ∧
    (s.girlSupport ≠ JSVal.bool true → girlScore s u = 0) := by
  obtain ⟨l, hl⟩ := locationScore_isOk s u h1 h2
  obtain ⟨t, ht⟩ := typeScore_isOk s u h3 h4
  exact ⟨⟨_, (calculateScore_ok_iff s u _).mpr ⟨l, t, hl, ht, rfl⟩⟩,
    locationScore_zero_of_falsy s u, typeScore_zero_of_falsy s u,
    classScore_zero_of_absent s u, distanceScore_zero_of_nonnum s u,
    feeScore_zero_of_nonnum s u, middayScore_zero_of_mismatch s u,
    girlScore_zero_of_mismatch s u⟩

/-- C1 (witness): the fully absent school and profile are safe and score
normally. -/
theorem calculateScore_total_on_safe_profiles_witness :
    ∃ v, calculateScore ({} : School) ({} : User) = .ok v :=
  (calculateScore_total_on_safe_profiles {} {} (by decide) (by decide)
    (by decide) (by decide)).1

/-- C2 (counterexample): the scoring function does not return an integer for
every record and profile: a school whose `type` is the (truthy) number 3
matched against a user with a string type throws a `TypeError` instead of
returning a value in [0, 120]. -/
theorem calculateScore_nonreturn_on_numeric_type :
    calculateScore { type := JSVal.num 3 } { type := JSVal.str "x" } =
      .error "TypeError" := by decide

/-- C2 (amended): whenever `calculateScore` returns normally, the returned
value is an integer in the closed interval [0, 120]; no criterion subtracts
points and the weights sum to 30+20+20+20+20+5+5 = 120. -/
theorem calculateScore_range (s : School) (u : User) (v : Int)
    (h : calculateScore s u = .ok v) : 0 ≤ v ∧ v ≤ 120 := by
  obtain ⟨l, t, hl, ht, rfl⟩ := (calculateScore_ok_iff s u v).mp h
  rcases classScore_cases s u with hc | hc <;>
    rcases locationScore_ok_cases s u l hl with hlc | hlc <;>
      rcases typeScore_ok_cases s u t ht with htc | htc <;>
        rcases distanceScore_cases s u with hd | hd <;>
          rcases feeScore_cases s u with hf | hf <;>
            rcases middayScore_cases s u with hm | hm <;>
              rcases girlScore_cases s u with hg | hg <;> omega

/-- C2 (witness): the fee-only example returns 20, which lies in [0, 120]. -/
theorem calculateScore_range_witness : (0 : Int) ≤ 20 ∧ (20 : Int) ≤ 120 :=
  calculateScore_range { fee := JSVal.num 500 } { fee := JSVal.str "low" } 20
    (by decide)

/-- C3: whenever the recommendation pipeline returns, it has computed
`calculateScore` for each school, retained exactly the scored schools with
score ≥ 30 (the output is a permutation of the filtered scored list, and
every retained entry carries its school's computed score), and the output is
sorted in descending score order.  In particular, for the five schools
scoring [90, 60, 30, 20, 10] against the example profile, the result is
exactly the three qualifying schools in the order [90, 60, 30]. -/
theorem recommend_filters_and_sorts :
    (∀ (ss : List School) (u : User) (out : List (School × Int)),
      recommend ss u = .ok out →
        out.Pairwise (fun a b => b.2 ≤ a.2) ∧
        (∀ p ∈ out, 30 ≤ p.2) ∧
        ∃ scored, scoreAll ss u = .ok scored ∧
          scored.map Prod.fst = ss ∧
          (∀ p ∈ scored, calculateScore p.1 u = .ok p.2) ∧
          List.Perm out (scored.filter (fun p => decide (30 ≤ p.2)))) ∧
    recommend
      [{ classes := .str "10", location := .str "Delhi", type := .str "Public",
         distence := .num 5 },
       { classes := .str "10", location := .str "Delhi", midday := .bool true,
         girlSupport := .bool true },
       { classes := .str "10" },
       { location := .str "Delhi" },
       { midday := .bool true, girlSupport := .bool true }]
      { class_ := .num 10, location := .str "delhi", type := .str "public",
        maxDistance := .num 10, fee := .str "free", middayMeal := .bool true,
        girlChild := .bool true }
    = .ok
      [({ classes := .str "10", location := .str "Delhi",
          type := .str "Public", distence := .num 5 }, 90),
       ({ classes := .str "10", location := .str "Delhi",
          midday := .bool true, girlSupport := .bool true }, 60),
       ({ classes := .str "10" }, 30)] := by
  constructor
  · intro ss u out h
    unfold recommend at h
    split at h
    · rename_i scored hsc
      injection h with h
      subst h
      refine ⟨sortDesc_pairwise _, ?_, scored, hsc,
        scoreAll_map_fst u ss scored hsc, scoreAll_scores u ss scored hsc,
        sortDesc_perm _⟩
      intro p hp
      have hp' : p ∈ scored.filter (fun p => decide (30 ≤ p.2)) :=
        (sortDesc_perm _).mem_iff.mp hp
      simpa using (List.of_mem_filter hp')
    · simp_all
  · decide

/-- C3 (witness): the concrete pipeline output for the five-school example is
sorted in descending score order. -/
theorem recommend_filters_and_sorts_witness :
    List.Pairwise (fun a b : School × Int => b.2 ≤ a.2)
      [({ classes := .str "10", location := .str "Delhi",
          type := .str "Public", distence := .num 5 }, 90),
       ({ classes := .str "10", location := .str "Delhi",
          midday := .bool true, girlSupport := .bool true }, 60),
       ({ classes := .str "10" }, 30)] := by
  have h := recommend_filters_and_sorts.1
    [{ classes := .str "10", location := .str "Delhi", type := .str "Public",
       distence := .num 5 },
     { classes := .str "10", location := .str "Delhi", midday := .bool true,
       girlSupport := .bool true },
     { classes := .str "10" },
     { location := .str "Delhi" },
     { midday := .bool true, girlSupport := .bool true }]
    { class_ := .num 10, location := .str "delhi", type := .str "public",
      maxDistance := .num 10, fee := .str "free", middayMeal := .bool true,
      girlChild := .bool true }
    [({ classes := .str "10", location := .str "Delhi",
        type := .str "Public", distence := .num 5 }, 90),
     ({ classes := .str "10", location := .str "Delhi",
        midday := .bool true, girlSupport := .bool true }, 60),
     ({ classes := .str "10" }, 30)] (by decide)
  exact h.1

/-- C4: any school/user pair satisfying all seven criteria (each criterion
awarding its full weight) scores exactly 120. -/
theorem calculateScore_full_marks (s : School) (u : User)
    (h1 : classScore s u = 30) (h2 : locationScore s u = .ok 20)
    (h3 : typeScore s u = .ok 20) (h4 : distanceScore s u = 20)
    (h5 : feeScore s u = 20) (h6 : middayScore s u = 5)
    (h7 : girlScore s u = 5) : calculateScore s u = .ok 120 :=
  (calculateScore_ok_iff s u 120).mpr
    ⟨20, 20, h2, h3, by rw [h1, h4, h5, h6, h7]; decide⟩

/-- C4 (witness): the spec's Example 1 pair satisfies every criterion and
scores 120. -/
theorem calculateScore_full_marks_witness :
    calculateScore
      { classes := .str "10", location := .str "Delhi", type := .str "Public",
        distence := .num 5, fee := .num 0, midday := .bool true,
        girlSupport := .bool true }
      { class_ := .num 10, location := .str "delhi", type := .str "public",
        maxDistance := .num 10, fee := .str "free", middayMeal := .bool true,
        girlChild := .bool true } = .ok 120 :=
  calculateScore_full_marks _ _ (by decide) (by decide) (by decide)
    (by decide) (by decide) (by decide) (by decide)

/-- C5: any school/user pair for which no criterion's condition holds (each
criterion contributing zero) scores exactly 0. -/
theorem calculateScore_no_match_zero (s : School) (u : User)
    (h1 : classScore s u = 0) (h2 : locationScore s u = .ok 0)
    (h3 : typeScore s u = .ok 0) (h4 : distanceScore s u = 0)
    (h5 : feeScore s u = 0) (h6 : middayScore s u = 0)
    (h7 : girlScore s u = 0) : calculateScore s u = .ok 0 :=
  (calculateScore_ok_iff s u 0).mpr
    ⟨0, 0, h2, h3, by rw [h1, h4, h5, h6, h7]; decide⟩

/-- C5 (witness): the spec's Example 2 pair matches no criterion and scores
0. -/
theorem calculateScore_no_match_zero_witness :
    calculateScore
      { classes := .arr [.str "8", .str "9"], distence := .num 50 }
      { class_ := .num 10, maxDistance := .num 5 } = .ok 0 :=
  calculateScore_no_match_zero _ _ (by decide) (by decide) (by decide)
    (by decide) (by decide) (by decide) (by decide)

/-- The fee criterion as worded by the specification: `school.fee` is numeric
AND (`user.fee == "free"` and fee == 0) OR (`user.fee == "low"` and
fee ≤ 500) OR (`user.fee == "medium"` and fee ≤ 1500). -/
def feeCriterionSpec (s : School) (u : User) : Bool :=
  match s.fee with
  | .num f =>
      (decide (u.fee = JSVal.str "free") && decide (f = 0)) ||
      (decide (u.fee = JSVal.str "low") && decide (f ≤ 500)) ||
      (decide (u.fee = JSVal.str "medium") && decide (f ≤ 1500))
  | _ => false

/-- C6: the fee criterion awards exactly 20 points when the spec's fee
condition holds and 0 otherwise (so any other or absent user fee category, or
a non-numeric school fee, awards 0); in particular a school with fee 500 and
a user with category "low" and no other fields scores exactly 20 in total. -/
theorem feeScore_matches_spec :
    (∀ (s : School) (u : User),
      feeScore s u = if feeCriterionSpec s u then 20 else 0) ∧
    calculateScore { fee := JSVal.num 500 } { fee := JSVal.str "low" } =
      .ok 20 := by
  constructor
  · intro s u
    unfold feeScore feeCriterionSpec
    cases hsf : s.fee <;> simp only []
    case num f =>
      simp only [decide_eq_true_eq, Bool.and_eq_true, Bool.or_eq_true]
      split_ifs <;> tauto
    all_goals simp
  · decide

/-- C7 (counterexample): a scalar `classes` value is NOT always equivalent to
its one-element wrapping: with `classes: null` the guard skips the criterion
(score 0), while `classes: [null]` stringifies the element to "null" and
matches a user whose `class` is `null` (score 30). -/
theorem classScore_null_wrap_differs :
    calculateScore { classes := JSVal.null } { class_ := JSVal.null } =
      .ok 0 ∧
    calculateScore { classes := JSVal.arr [JSVal.null] }
      { class_ := JSVal.null } = .ok 30 := ⟨by decide, by decide⟩

/-- C7 (amended): for every scalar class value `c` other than `undefined` and
`null`, a school with `classes = c` and an otherwise identical school with
`classes = [c]` receive the same score from `calculateScore`; and both the
scalar `"10"` and the collection `["10"]` match `user.class = 10` (comparison
after stringifying both sides). -/
theorem calculateScore_scalar_wrap_equiv (s : School) (u : User) (c : JSVal)
    (h1 : c ≠ JSVal.undefined) (h2 : c ≠ JSVal.null)
    (h3 : ∀ xs, c ≠ JSVal.arr xs) :
    calculateScore { s with classes := c } u =
      calculateScore { s with classes := JSVal.arr [c] } u ∧
    classScore { s with classes := JSVal.str "10" }
      { u with class_ := JSVal.num 10 } = 30 ∧
    classScore { s with classes := JSVal.arr [JSVal.str "10"] }
      { u with class_ := JSVal.num 10 } = 30 := by
  refine ⟨?_, rfl, rfl⟩
  have hloc : locationScore { s with classes := c } u =
      locationScore { s with classes := JSVal.arr [c] } u := rfl
  have htyp : typeScore { s with classes := c } u =
      typeScore { s with classes := JSVal.arr [c] } u := rfl
  have hdist : distanceScore { s with classes := c } u =
      distanceScore { s with classes := JSVal.arr [c] } u := rfl
  have hfee : feeScore { s with classes := c } u =
      feeScore { s with classes := JSVal.arr [c] } u := rfl
  have hmid : middayScore { s with classes := c } u =
      middayScore { s with classes := JSVal.arr [c] } u := rfl
  have hgirl : girlScore { s with classes := c } u =
      girlScore { s with classes := JSVal.arr [c] } u := rfl
  unfold calculateScore
  rw [hloc, htyp, classScore_wrap s u c h1 h2 h3, hdist, hfee, hmid, hgirl]

/-- C7 (witness): the scalar `"10"` and the wrapped `["10"]` give the same
total score against the class-10 user. -/
theorem calculateScore_scalar_wrap_equiv_witness :
    calculateScore { classes := JSVal.str "10" } { class_ := JSVal.num 10 } =
      calculateScore { classes := JSVal.arr [JSVal.str "10"] }
        { class_ := JSVal.num 10 } := by
  have h := (calculateScore_scalar_wrap_equiv {} { class_ := JSVal.num 10 }
    (JSVal.str "10") (by decide) (by decide) (by intro xs h; cases h)).1
  exact h

/-- C8: the score is monotonic per criterion: if every criterion's
contribution on one pair is at most its contribution on another (in
particular, when one additional criterion's condition becomes satisfied and
every other criterion keeps its truth value), the returned total does not
decrease. -/
theorem calculateScore_monotone (s s' : School) (u u' : User)
    (v v' l l' t t' : Int)
    (hv : calculateScore s u = .ok v) (hv' : calculateScore s' u' = .ok v')
    (hl : locationScore s u = .ok l) (hl' : locationScore s' u' = .ok l')
    (ht : typeScore s u = .ok t) (ht' : typeScore s' u' = .ok t')
    (m1 : classScore s u ≤ classScore s' u') (m2 : l ≤ l') (m3 : t ≤ t')
    (m4 : distanceScore s u ≤ distanceScore s' u')
    (m5 : feeScore s u ≤ feeScore s' u')
    (m6 : middayScore s u ≤ middayScore s' u')
    (m7 : girlScore s u ≤ girlScore s' u') : v ≤ v' := by
  obtain ⟨la, ta, hla, hta, hva⟩ := (calculateScore_ok_iff s u v).mp hv
  obtain ⟨lb, tb, hlb, htb, hvb⟩ := (calculateScore_ok_iff s' u' v').mp hv'
  rw [hl] at hla
  rw [ht] at hta
  rw [hl'] at hlb
  rw [ht'] at htb
  injection hla with hla
  injection hta with hta
  injection hlb with hlb
  injection htb with htb
  subst hla hta hlb htb
  omega

/-- C8 (witness): adding a satisfied class criterion raises the score from 0
to 30. -/
theorem calculateScore_monotone_witness : (0 : Int) ≤ 30 :=
  calculateScore_monotone {} { classes := JSVal.str "5" } {}
    { class_ := JSVal.num 5 } 0 30 0 0 0 0 (by decide) (by decide) (by decide)
    (by decide) (by decide) (by decide) (by decide) (by decide) (by decide)
    (by decide) (by decide) (by decide) (by decide)

/-- C9: an empty string is treated as an absent field — a user profile with
`location == ""` (or `type == ""`) receives 0 points from that criterion for
every school, because presence is tested by truthiness and the empty string
is falsy. -/
theorem empty_string_skips (s : School) (u : User) :
    (u.location = JSVal.str "" → locationScore s u = .ok 0) ∧
    (u.type = JSVal.str "" → typeScore s u = .ok 0) := by
  constructor
  · intro h
    exact locationScore_zero_of_falsy s u (Or.inr (by rw [h]; rfl))
  · intro h
    exact typeScore_zero_of_falsy s u (Or.inr (by rw [h]; rfl))

/-- C9 (witness): against a school with location "Delhi" and type "Public"
(of which the empty string is a substring and a lowercase-equal prefix
candidate), the empty-string profile still gets 0 from both criteria. -/
theorem empty_string_skips_witness :
    locationScore { location := JSVal.str "Delhi", type := JSVal.str "Public" }
      { location := JSVal.str "", type := JSVal.str "" } = .ok 0 ∧
    typeScore { location := JSVal.str "Delhi", type := JSVal.str "Public" }
      { location := JSVal.str "", type := JSVal.str "" } = .ok 0 :=
  ⟨(empty_string_skips _ _).1 rfl, (empty_string_skips _ _).2 rfl⟩

/-- C10: the user fee categories are nested upper bounds: for a school with a
numeric fee, points under "free" imply points under "low" and "medium", and
points under "low" imply points under "medium"; a free school (fee == 0)
qualifies under every category. -/
theorem feeCategories_nested (s : School) (u : User) (f : Int)
    (hf : s.fee = JSVal.num f) :
    (feeScore s { u with fee := JSVal.str "free" } = 20 →
      feeScore s { u with fee := JSVal.str "low" } = 20 ∧
      feeScore s { u with fee := JSVal.str "medium" } = 20) ∧
    (feeScore s { u with fee := JSVal.str "low" } = 20 →
      feeScore s { u with fee := JSVal.str "medium" } = 20) ∧
    (f = 0 →
      feeScore s { u with fee := JSVal.str "free" } = 20 ∧
      feeScore s { u with fee := JSVal.str "low" } = 20 ∧
      feeScore s { u with fee := JSVal.str "medium" } = 20) := by
  have hfree := feeScore_of_free s { u with fee := JSVal.str "free" } f hf rfl
  have hlow := feeScore_of_low s { u with fee := JSVal.str "low" } f hf rfl
  have hmed := feeScore_of_medium s { u with fee := JSVal.str "medium" } f hf rfl
  rw [hfree, hlow, hmed]
  split_ifs <;> omega

/-- C10 (witness): a free school qualifies under the "medium" category. -/
theorem feeCategories_nested_witness :
    feeScore { fee := JSVal.num 0 } { fee := JSVal.str "medium" } = 20 :=
  ((feeCategories_nested { fee := JSVal.num 0 } {} 0 rfl).2.2 rfl).2.2

end EduBot
